import Mathlib

/-!
Shallow embedding of `crypto/cipher/aes_icm_wssl.c` (AES Integer Counter
Mode over the wolfSSL block-cipher primitive) from the libsrtp repository.

Byte buffers are `List Nat` (each element one octet).  Machine-level
`memcpy` into a fixed buffer is modelled as overwriting a prefix of the
destination list.  The external wolfSSL primitives (`wc_AesInit`,
`wc_AesSetKey`, `wc_AesCtrEncrypt`) and the heap allocator are outside
this repository; they are modelled from the spec's contract for the
opaque block-cipher service, with Boolean parameters standing for the
success or failure of each external call and an abstract keystream
function standing for AES itself.
-/

/-- Error status values, from the repository's `srtp_err_status_t`
enumeration (declared in a header outside `src/`).  Only the members used
by this translation unit are modelled.  `fail` is the unspecified-failure
member `srtp_err_status_fail`; `cipher_fail` is
`srtp_err_status_cipher_fail`. -/
inductive srtp_err_status_t where
  | ok
  | fail
  | bad_param
  | alloc_fail
  | init_fail
  | cipher_fail
  | buffer_small
  deriving DecidableEq, Repr

/-- Cipher direction values of `srtp_cipher_direction_t`. -/
inductive srtp_cipher_direction_t where
  | encrypt
  | decrypt
  | any
  deriving DecidableEq, Repr

/-- Algorithm identifiers bound by `srtp_aes_icm_wolfssl_alloc`
(`SRTP_AES_ICM_128` and friends, declared in a header outside `src/`). -/
inductive srtp_cipher_algorithm_t where
  | aes_icm_128
  | aes_icm_192
  | aes_icm_256
  deriving DecidableEq, Repr

/-- `SRTP_AES_128_KEY_LEN`: raw AES-128 key size in bytes. -/
def SRTP_AES_128_KEY_LEN : Nat := 16

/-- `SRTP_AES_192_KEY_LEN`: raw AES-192 key size in bytes. -/
def SRTP_AES_192_KEY_LEN : Nat := 24

/-- `SRTP_AES_256_KEY_LEN`: raw AES-256 key size in bytes. -/
def SRTP_AES_256_KEY_LEN : Nat := 32

/-- `SRTP_SALT_LEN`: the 112-bit session salt is 14 bytes. -/
def SRTP_SALT_LEN : Nat := 14

/-- `SRTP_AES_ICM_128_KEY_LEN_WSALT`: AES-128 key plus 14-byte salt. -/
def SRTP_AES_ICM_128_KEY_LEN_WSALT : Nat := 30

/-- `SRTP_AES_ICM_192_KEY_LEN_WSALT`: AES-192 key plus 14-byte salt. -/
def SRTP_AES_ICM_192_KEY_LEN_WSALT : Nat := 38

/-- `SRTP_AES_ICM_256_KEY_LEN_WSALT`: AES-256 key plus 14-byte salt. -/
def SRTP_AES_ICM_256_KEY_LEN_WSALT : Nat := 46

/-- Modelled from the spec: `v128_set_to_zero` from the repository's
128-bit value type (its implementation lives outside `src/`); a Block128
of sixteen zero bytes. -/
def v128_set_to_zero : List Nat := List.replicate 16 0

/-- Modelled from the spec: `v128_copy_octet_string` reads exactly 16
bytes from the input octet string into a Block128. -/
def v128_copy_octet_string (s : List Nat) : List Nat := s.take 16

/-- Modelled from the spec: `v128_xor` is the byte-wise exclusive-or of
two Block128 values. -/
def v128_xor (a b : List Nat) : List Nat := List.zipWith Nat.xor a b

/-- `memcpy(dst, src, src.length)` into a buffer: the first
`src.length` bytes of `dst` are overwritten, the rest kept. -/
def memcpy_into (dst src : List Nat) : List Nat := src ++ dst.drop src.length

/-- Modelled from the spec: the external wolfSSL `Aes` context after key
programming.  It records the programmed raw key, the programmed starting
counter block (`reg`), and how many keystream bytes have been consumed
(the primitive internally advances its block counter as keystream is
produced). -/
structure Aes where
  key : List Nat
  reg : List Nat
  pos : Nat
  deriving DecidableEq, Repr

/-- Modelled from the spec: a freshly `wc_AesInit`-ed context with
nothing programmed yet. -/
def wc_AesInit_ctx : Aes := { key := [], reg := [], pos := 0 }

/-- Modelled from the spec: `wc_AesSetKey` programs the key schedule
with `keylen` bytes of `userKey` and the counter block `iv`, resetting
the keystream position. -/
def wc_AesSetKey (userKey : List Nat) (keylen : Nat) (iv : List Nat) : Aes :=
  { key := userKey.take keylen, reg := iv, pos := 0 }

/-- Modelled from the spec: `wc_AesCtrEncrypt` produces `src.length`
keystream bytes, a pure function `ks` of the programmed key, the
programmed counter block and the byte position, XORs them into `src`,
and advances the internal position. -/
def wc_AesCtrEncrypt (ks : List Nat → List Nat → Nat → Nat) (a : Aes)
    (src : List Nat) : Aes × List Nat :=
  ({ a with pos := a.pos + src.length },
   List.zipWith Nat.xor src
     ((List.range src.length).map fun i => ks a.key a.reg (a.pos + i)))

/-- The engine state `srtp_aes_icm_ctx_t` (declared in `aes_icm_ext.h`,
outside `src/`): current counter block, per-stream offset, a 32-byte key
buffer, the active key size, and the lazily created wolfSSL context
(`none` models a NULL pointer). -/
structure srtp_aes_icm_ctx_t where
  counter : List Nat
  offset : List Nat
  key : List Nat
  key_size : Nat
  ctx : Option Aes
  deriving DecidableEq, Repr

/-- A fresh zero-initialized engine state as produced by
`srtp_crypto_alloc` (which zeroes memory) in `srtp_aes_icm_wolfssl_alloc`,
with `ctx = NULL` and the given `key_size` bound. -/
def icm_fresh_ctx (ksz : Nat) : srtp_aes_icm_ctx_t :=
  { counter := List.replicate 16 0
    offset := List.replicate 16 0
    key := List.replicate 32 0
    key_size := ksz
    ctx := none }

/-- The fully zeroized engine state that
`octet_string_set_to_zero(ctx, sizeof(srtp_aes_icm_ctx_t))` leaves
behind in `srtp_aes_icm_wolfssl_dealloc` just before the memory is
released. -/
def srtp_aes_icm_zeroized : srtp_aes_icm_ctx_t :=
  { counter := List.replicate 16 0
    offset := List.replicate 16 0
    key := List.replicate 32 0
    key_size := 0
    ctx := none }

/-- The engine state after the salt-copy phase of
`srtp_aes_icm_wolfssl_context_init`: the wolfSSL context is created if it
was absent, `counter` and `offset` are zeroed and loaded with the
`SRTP_SALT_LEN` bytes at position `key_size` of the input, and their
bytes 14 and 15 are forced to zero.  This phase runs before the
defensive key-size re-check. -/
def icm_ctx_after_salt (c : srtp_aes_icm_ctx_t) (key : List Nat) :
    srtp_aes_icm_ctx_t :=
  { c with
    ctx := if c.ctx = none then some wc_AesInit_ctx else c.ctx
    counter := ((memcpy_into v128_set_to_zero
      ((key.drop c.key_size).take SRTP_SALT_LEN)).set SRTP_SALT_LEN 0).set
      (SRTP_SALT_LEN + 1) 0
    offset := ((memcpy_into v128_set_to_zero
      ((key.drop c.key_size).take SRTP_SALT_LEN)).set SRTP_SALT_LEN 0).set
      (SRTP_SALT_LEN + 1) 0 }

/-- `srtp_aes_icm_wolfssl_context_init`.  `allocOk` models the success of
`srtp_crypto_alloc(sizeof(Aes))` and `initOk` of `wc_AesInit`; both are
only consulted when the context has not been created yet (lazy,
idempotent creation).  The salt phase runs first; then the key size is
re-checked and, only if it is one of the three supported lengths, the raw
key bytes are copied. -/
def srtp_aes_icm_wolfssl_context_init (allocOk initOk : Bool)
    (c : srtp_aes_icm_ctx_t) (key : List Nat) :
    srtp_err_status_t × srtp_aes_icm_ctx_t :=
  if c.ctx = none ∧ allocOk = false then (.alloc_fail, c)
  else if c.ctx = none ∧ initOk = false then (.init_fail, c)
  else if c.key_size = SRTP_AES_256_KEY_LEN ∨ c.key_size = SRTP_AES_192_KEY_LEN ∨
      c.key_size = SRTP_AES_128_KEY_LEN then
    if c.key_size > 32 then (.bad_param, icm_ctx_after_salt c key)
    else (.ok, { icm_ctx_after_salt c key with
      key := memcpy_into c.key (key.take c.key_size) })
  else (.bad_param, icm_ctx_after_salt c key)

/-- `srtp_aes_icm_wolfssl_set_iv`.  The 16-byte nonce is read from `iv`,
the counter recomputed as `offset XOR nonce`, and `wc_AesSetKey` is
invoked with the engine key and the new counter, always in AES_ENCRYPTION
mode.  `setKeyOk` models the success of `wc_AesSetKey`; on its failure
the function returns `srtp_err_status_fail`.  The direction argument is
cast to void in the source. -/
def srtp_aes_icm_wolfssl_set_iv (setKeyOk : Bool) (c : srtp_aes_icm_ctx_t)
    (iv : List Nat) (dir : srtp_cipher_direction_t) :
    srtp_err_status_t × srtp_aes_icm_ctx_t :=
  let nonce := v128_copy_octet_string iv
  let c1 := { c with counter := v128_xor c.offset nonce }
  if setKeyOk = false then (.fail, c1)
  else (.ok, { c1 with ctx := some (wc_AesSetKey c1.key c1.key_size c1.counter) })

/-- `srtp_aes_icm_wolfssl_encrypt`.  Returns the status, the engine
state, the destination buffer, and the value behind `dst_len` (`none`
models a NULL pointer).  `ctrOk` models the success of
`wc_AesCtrEncrypt`; a missing wolfSSL context makes that call fail the
same way (BAD_FUNC_ARG is negative). -/
def srtp_aes_icm_wolfssl_encrypt (ks : List Nat → List Nat → Nat → Nat)
    (ctrOk : Bool) (c : srtp_aes_icm_ctx_t) (src : List Nat)
    (dst : List Nat) (dst_len : Option Nat) :
    srtp_err_status_t × srtp_aes_icm_ctx_t × List Nat × Option Nat :=
  match dst_len with
  | none => (.bad_param, c, dst, none)
  | some cap =>
    if cap < src.length then (.buffer_small, c, dst, some cap)
    else
      match c.ctx with
      | none => (.cipher_fail, c, dst, some cap)
      | some a =>
        if ctrOk = false then (.cipher_fail, c, dst, some cap)
        else
          let r := wc_AesCtrEncrypt ks a src
          (.ok, { c with ctx := some r.1 }, memcpy_into dst r.2, some src.length)

/-- The cipher descriptor `srtp_cipher_type_t`: the per-algorithm
operation table.  The allocate/deallocate entries operate on whole
cipher objects and are stated separately below; note in the source that
the encrypt and decrypt entries are the very same function. -/
structure srtp_cipher_type_t where
  init : Bool → Bool → srtp_aes_icm_ctx_t → List Nat →
    srtp_err_status_t × srtp_aes_icm_ctx_t
  encrypt : (List Nat → List Nat → Nat → Nat) → Bool → srtp_aes_icm_ctx_t →
    List Nat → List Nat → Option Nat →
    srtp_err_status_t × srtp_aes_icm_ctx_t × List Nat × Option Nat
  decrypt : (List Nat → List Nat → Nat → Nat) → Bool → srtp_aes_icm_ctx_t →
    List Nat → List Nat → Option Nat →
    srtp_err_status_t × srtp_aes_icm_ctx_t × List Nat × Option Nat
  set_iv : Bool → srtp_aes_icm_ctx_t → List Nat → srtp_cipher_direction_t →
    srtp_err_status_t × srtp_aes_icm_ctx_t
  description : String
  algorithm : srtp_cipher_algorithm_t

/-- The `srtp_aes_icm_128` descriptor. -/
def srtp_aes_icm_128 : srtp_cipher_type_t :=
  { init := srtp_aes_icm_wolfssl_context_init
    encrypt := srtp_aes_icm_wolfssl_encrypt
    decrypt := srtp_aes_icm_wolfssl_encrypt
    set_iv := srtp_aes_icm_wolfssl_set_iv
    description := "AES-128 counter mode using wolfSSL"
    algorithm := .aes_icm_128 }

/-- The `srtp_aes_icm_192` descriptor. -/
def srtp_aes_icm_192 : srtp_cipher_type_t :=
  { init := srtp_aes_icm_wolfssl_context_init
    encrypt := srtp_aes_icm_wolfssl_encrypt
    decrypt := srtp_aes_icm_wolfssl_encrypt
    set_iv := srtp_aes_icm_wolfssl_set_iv
    description := "AES-192 counter mode using wolfSSL"
    algorithm := .aes_icm_192 }

/-- The `srtp_aes_icm_256` descriptor. -/
def srtp_aes_icm_256 : srtp_cipher_type_t :=
  { init := srtp_aes_icm_wolfssl_context_init
    encrypt := srtp_aes_icm_wolfssl_encrypt
    decrypt := srtp_aes_icm_wolfssl_encrypt
    set_iv := srtp_aes_icm_wolfssl_set_iv
    description := "AES-256 counter mode using wolfSSL"
    algorithm := .aes_icm_256 }

/-- The cipher object `srtp_cipher_t`: engine state pointer (`none`
models NULL), bound algorithm identifier, bound descriptor, and the
combined key+salt length. -/
structure srtp_cipher_t where
  state : Option srtp_aes_icm_ctx_t
  algorithm : srtp_cipher_algorithm_t
  ctype : srtp_cipher_type_t
  key_len : Nat

/-- `srtp_aes_icm_wolfssl_alloc`.  `cAllocOk` and `icmAllocOk` model the
success of the two `srtp_crypto_alloc` calls (which zero the memory they
return).  The combined key+salt length is validated first; then the
matching algorithm identifier, descriptor and key size are bound and the
wolfSSL context left unset. -/
def srtp_aes_icm_wolfssl_alloc (cAllocOk icmAllocOk : Bool)
    (key_len tlen : Nat) : srtp_err_status_t × Option srtp_cipher_t :=
  if key_len ≠ SRTP_AES_ICM_128_KEY_LEN_WSALT ∧
      key_len ≠ SRTP_AES_ICM_192_KEY_LEN_WSALT ∧
      key_len ≠ SRTP_AES_ICM_256_KEY_LEN_WSALT then
    (.bad_param, none)
  else if cAllocOk = false then (.alloc_fail, none)
  else if icmAllocOk = false then (.alloc_fail, none)
  else if key_len = SRTP_AES_ICM_128_KEY_LEN_WSALT then
    (.ok, some { state := some (icm_fresh_ctx SRTP_AES_128_KEY_LEN)
                 algorithm := .aes_icm_128
                 ctype := srtp_aes_icm_128
                 key_len := key_len })
  else if key_len = SRTP_AES_ICM_192_KEY_LEN_WSALT then
    (.ok, some { state := some (icm_fresh_ctx SRTP_AES_192_KEY_LEN)
                 algorithm := .aes_icm_192
                 ctype := srtp_aes_icm_192
                 key_len := key_len })
  else
    (.ok, some { state := some (icm_fresh_ctx SRTP_AES_256_KEY_LEN)
                 algorithm := .aes_icm_256
                 ctype := srtp_aes_icm_256
                 key_len := key_len })

/-- `srtp_aes_icm_wolfssl_dealloc`.  Returns the status together with a
snapshot of the engine state at the instant its memory is released (so
the mandated zeroization is observable); `none` when there is no engine
state to release. -/
def srtp_aes_icm_wolfssl_dealloc (c : Option srtp_cipher_t) :
    srtp_err_status_t × Option srtp_aes_icm_ctx_t :=
  match c with
  | none => (.bad_param, none)
  | some cc =>
    match cc.state with
    | none => (.ok, none)
    | some _ => (.ok, some srtp_aes_icm_zeroized)

/-- The engine state of a freshly allocated cipher for `key_len`, or
`none` when `srtp_aes_icm_wolfssl_alloc` does not succeed. -/
def icm_alloc_engine (key_len : Nat) : Option srtp_aes_icm_ctx_t :=
  match srtp_aes_icm_wolfssl_alloc true true key_len 0 with
  | (srtp_err_status_t.ok, some cip) => cip.state
  | _ => none

/-- Keep the updated engine state of a status-returning step only when
the step reported `srtp_err_status_ok`. -/
def icm_status_step (r : srtp_err_status_t × srtp_aes_icm_ctx_t) :
    Option srtp_aes_icm_ctx_t :=
  if r.1 = srtp_err_status_t.ok then some r.2 else none

/-- Run the counter-mode transform of `src` into a fresh buffer of
exactly `src.length` bytes and keep the produced bytes on success. -/
def icm_encrypt_step (ks : List Nat → List Nat → Nat → Nat)
    (c : srtp_aes_icm_ctx_t) (src : List Nat) : Option (List Nat) :=
  if (srtp_aes_icm_wolfssl_encrypt ks true c src
      (List.replicate src.length 0) (some src.length)).1 =
      srtp_err_status_t.ok then
    some (srtp_aes_icm_wolfssl_encrypt ks true c src
      (List.replicate src.length 0) (some src.length)).2.2.1
  else none

/-- The spec's round-trip scenario as one deterministic pipeline:
allocate an engine for `key_len`, initialize it with `keyAndSalt`, set
the IV to `nonce` with direction `dir`, then run the counter-mode
transform of `src`.  Returns the produced bytes, or `none` if any step
does not return `srtp_err_status_ok`. -/
def icm_pipeline (ks : List Nat → List Nat → Nat → Nat) (key_len : Nat)
    (keyAndSalt nonce src : List Nat) (dir : srtp_cipher_direction_t) :
    Option (List Nat) :=
  (icm_alloc_engine key_len).bind fun c0 =>
  (icm_status_step (srtp_aes_icm_wolfssl_context_init true true c0
    keyAndSalt)).bind fun c1 =>
  (icm_status_step (srtp_aes_icm_wolfssl_set_iv true c1 nonce dir)).bind fun c2 =>
  icm_encrypt_step ks c2 src

/-- A concrete just-allocated AES-ICM-128 cipher object, used as a test
input; its block-cipher context was never created. -/
def icm_cipher_example : srtp_cipher_t :=
  { state := some (icm_fresh_ctx 16)
    algorithm := .aes_icm_128
    ctype := srtp_aes_icm_128
    key_len := 30 }

/-- Taking the full length of a list is the identity. -/
lemma take_all_of_length_eq (l : List Nat) (n : Nat) (h : l.length = n) :
    l.take n = l := by
  subst h
  exact List.take_length l

/-- XOR-ing the same list into a buffer twice gives the buffer back,
as long as the mask is at least as long. -/
lemma zipWith_xor_xor (src : List Nat) :
    ∀ m : List Nat, src.length ≤ m.length →
      List.zipWith Nat.xor (List.zipWith Nat.xor src m) m = src := by
  induction src with
  | nil => intro m _; simp
  | cons a s ih =>
    intro m hm
    cases m with
    | nil => simp at hm
    | cons b t =>
      simp only [List.zipWith]
      have hb : (a.xor b).xor b = a := by
        show (a ^^^ b) ^^^ b = a
        rw [Nat.xor_assoc, Nat.xor_self, Nat.xor_zero]
      rw [hb, ih t (by simpa using hm)]

/-- Forcing bytes 14 and 15 of a zero-padded 14-byte salt to zero leaves
exactly the salt followed by two zero bytes. -/
lemma force_last_two_zero (s : List Nat) (h : s.length = SRTP_SALT_LEN) :
    ((memcpy_into v128_set_to_zero s).set SRTP_SALT_LEN 0).set
      (SRTP_SALT_LEN + 1) 0 = s ++ [0, 0] := by
  have hm : memcpy_into v128_set_to_zero s = s ++ [0, 0] := by
    unfold memcpy_into v128_set_to_zero
    rw [h]
    rfl
  rw [hm, List.set_append_right SRTP_SALT_LEN 0 h.le,
      List.set_append_right (SRTP_SALT_LEN + 1) 0 (by omega), h]
  rfl

/-- Claim C1: for every call to set_iv on an engine with a 16-byte nonce
and either direction value, the counter is set to the byte-wise XOR of
the offset with the nonce, and the result is identical for every
direction value. -/
theorem claim_C1_set_iv_counter (setKeyOk : Bool) (c : srtp_aes_icm_ctx_t)
    (iv : List Nat) (dir : srtp_cipher_direction_t) (hiv : iv.length = 16) :
    (srtp_aes_icm_wolfssl_set_iv setKeyOk c iv dir).2.counter =
      List.zipWith Nat.xor c.offset iv ∧
    ∀ dir2, srtp_aes_icm_wolfssl_set_iv setKeyOk c iv dir =
      srtp_aes_icm_wolfssl_set_iv setKeyOk c iv dir2 := by
  constructor
  · unfold srtp_aes_icm_wolfssl_set_iv v128_copy_octet_string v128_xor
    rw [take_all_of_length_eq iv 16 hiv]
    cases setKeyOk <;> simp
  · intro dir2
    rfl

/-- Witness for C1 at a concrete 16-byte nonce. -/
theorem claim_C1_witness :
    (srtp_aes_icm_wolfssl_set_iv true (icm_fresh_ctx 16) (List.range 16)
      srtp_cipher_direction_t.encrypt).2.counter =
      List.zipWith Nat.xor (icm_fresh_ctx 16).offset (List.range 16) ∧
    ∀ dir2, srtp_aes_icm_wolfssl_set_iv true (icm_fresh_ctx 16) (List.range 16)
      srtp_cipher_direction_t.encrypt =
      srtp_aes_icm_wolfssl_set_iv true (icm_fresh_ctx 16) (List.range 16) dir2 :=
  claim_C1_set_iv_counter true (icm_fresh_ctx 16) (List.range 16)
    srtp_cipher_direction_t.encrypt (by decide)

/-- Claim C4: whenever the destination capacity is strictly smaller than
the source length, encrypt fails with buffer_small and leaves the
destination buffer, the stored length and the engine untouched. -/
theorem claim_C4_buffer_small (ks : List Nat → List Nat → Nat → Nat)
    (ctrOk : Bool) (c : srtp_aes_icm_ctx_t) (src dst : List Nat) (cap : Nat)
    (h : cap < src.length) :
    srtp_aes_icm_wolfssl_encrypt ks ctrOk c src dst (some cap) =
      (.buffer_small, c, dst, some cap) := by
  unfold srtp_aes_icm_wolfssl_encrypt
  simp [h]

/-- Witness for C4 with a 3-byte source and capacity 1. -/
theorem claim_C4_witness :
    srtp_aes_icm_wolfssl_encrypt (fun _ _ _ => 0) true (icm_fresh_ctx 16)
      [1, 2, 3] [9] (some 1) =
      (.buffer_small, icm_fresh_ctx 16, [9], some 1) :=
  claim_C4_buffer_small (fun _ _ _ => 0) true (icm_fresh_ctx 16) [1, 2, 3] [9] 1
    (by decide)

/-- Claim C9: encrypt with a NULL dst_len pointer fails with bad_param
before any length comparison or transform, leaving the destination and
the engine state unchanged. -/
theorem claim_C9_null_dst_len (ks : List Nat → List Nat → Nat → Nat)
    (ctrOk : Bool) (c : srtp_aes_icm_ctx_t) (src dst : List Nat) :
    srtp_aes_icm_wolfssl_encrypt ks ctrOk c src dst none =
      (.bad_param, c, dst, none) := rfl

/-- Counterexample for claim C7: on a concrete engine whose wc_AesSetKey
call is rejected, set_iv returns srtp_err_status_fail, which is not the
cipher_fail error code the claim names. -/
theorem claim_C7_counterexample :
    (srtp_aes_icm_wolfssl_set_iv false (icm_fresh_ctx 16)
      (List.replicate 16 0) srtp_cipher_direction_t.encrypt).1 =
      srtp_err_status_t.fail ∧
    srtp_err_status_t.fail ≠ srtp_err_status_t.cipher_fail := by
  constructor
  · rfl
  · decide

/-- Amended claim C7: whenever the external block-cipher primitive
rejects the key/counter combination during set_iv, set_iv fails with the
generic failure code srtp_err_status_fail (not cipher_fail, which this
file reserves for transform failures in encrypt). -/
theorem claim_C7_amended_fail_code (c : srtp_aes_icm_ctx_t) (iv : List Nat)
    (dir : srtp_cipher_direction_t) :
    (srtp_aes_icm_wolfssl_set_iv false c iv dir).1 = srtp_err_status_t.fail := rfl

/-- Claim C8: deallocate fails with bad_param exactly on a NULL handle;
on every non-null handle it succeeds, and whenever engine state is
present its entire contents (key, offset, counter, key_size, context
pointer) are zero bytes at the moment the memory is released, whether or
not the block-cipher context was ever created. -/
theorem claim_C8_dealloc_zeroizes :
    srtp_aes_icm_wolfssl_dealloc none = (srtp_err_status_t.bad_param, none) ∧
    ∀ cc : srtp_cipher_t,
      (srtp_aes_icm_wolfssl_dealloc (some cc)).1 = srtp_err_status_t.ok ∧
      ∀ s, cc.state = some s →
        (srtp_aes_icm_wolfssl_dealloc (some cc)).2 = some srtp_aes_icm_zeroized := by
  refine ⟨rfl, fun cc => ⟨?_, ?_⟩⟩
  · cases hs : cc.state <;> simp [srtp_aes_icm_wolfssl_dealloc, hs]
  · intro s hs
    simp [srtp_aes_icm_wolfssl_dealloc, hs]

/-- Witness for C8 on a concrete engine whose block-cipher context was
never created. -/
theorem claim_C8_witness :
    (srtp_aes_icm_wolfssl_dealloc (some icm_cipher_example)).1 =
      srtp_err_status_t.ok ∧
    (srtp_aes_icm_wolfssl_dealloc (some icm_cipher_example)).2 =
      some srtp_aes_icm_zeroized :=
  ⟨(claim_C8_dealloc_zeroizes.2 _).1,
   (claim_C8_dealloc_zeroizes.2 _).2 (icm_fresh_ctx 16) rfl⟩

/-- Claim C3: allocate rejects every combined key+salt length outside
{30, 38, 46} with bad_param and no engine; for the three valid lengths it
fails only on allocation failure and otherwise binds the matching
algorithm identifier, descriptor and key size, with the block-cipher
context left unset. -/
theorem claim_C3_alloc (a b : Bool) (key_len tlen : Nat) :
    srtp_aes_icm_wolfssl_alloc a b key_len tlen =
      (if key_len = 30 ∨ key_len = 38 ∨ key_len = 46 then
        if a = false ∨ b = false then (srtp_err_status_t.alloc_fail, none)
        else if key_len = 30 then
          (srtp_err_status_t.ok, some
            { state := some (icm_fresh_ctx 16)
              algorithm := srtp_cipher_algorithm_t.aes_icm_128
              ctype := srtp_aes_icm_128
              key_len := key_len })
        else if key_len = 38 then
          (srtp_err_status_t.ok, some
            { state := some (icm_fresh_ctx 24)
              algorithm := srtp_cipher_algorithm_t.aes_icm_192
              ctype := srtp_aes_icm_192
              key_len := key_len })
        else
          (srtp_err_status_t.ok, some
            { state := some (icm_fresh_ctx 32)
              algorithm := srtp_cipher_algorithm_t.aes_icm_256
              ctype := srtp_aes_icm_256
              key_len := key_len })
      else (srtp_err_status_t.bad_param, none)) := by
  by_cases h1 : key_len = 30
  · subst h1; cases a <;> cases b <;> rfl
  · by_cases h2 : key_len = 38
    · subst h2; cases a <;> cases b <;> rfl
    · by_cases h3 : key_len = 46
      · subst h3; cases a <;> cases b <;> rfl
      · simp [srtp_aes_icm_wolfssl_alloc, SRTP_AES_ICM_128_KEY_LEN_WSALT,
          SRTP_AES_ICM_192_KEY_LEN_WSALT, SRTP_AES_ICM_256_KEY_LEN_WSALT,
          h1, h2, h3]

/-- Claim C2: after every successful initialize call, regardless of the
salt bytes, offset and counter hold the 14 salt bytes taken at position
key_size of the input in bytes 0..13, followed by two zero bytes (bytes
14 and 15). -/
theorem claim_C2_init_salt (allocOk initOk : Bool) (c : srtp_aes_icm_ctx_t)
    (key : List Nat) (hlen : c.key_size + SRTP_SALT_LEN ≤ key.length)
    (hok : (srtp_aes_icm_wolfssl_context_init allocOk initOk c key).1 =
      srtp_err_status_t.ok) :
    (srtp_aes_icm_wolfssl_context_init allocOk initOk c key).2.offset =
      (key.drop c.key_size).take SRTP_SALT_LEN ++ [0, 0] ∧
    (srtp_aes_icm_wolfssl_context_init allocOk initOk c key).2.counter =
      (key.drop c.key_size).take SRTP_SALT_LEN ++ [0, 0] := by
  have hsalt : ((key.drop c.key_size).take SRTP_SALT_LEN).length =
      SRTP_SALT_LEN := by
    rw [List.length_take, List.length_drop]
    omega
  have hforce := force_last_two_zero _ hsalt
  unfold srtp_aes_icm_wolfssl_context_init at hok ⊢
  by_cases hA : c.ctx = none ∧ allocOk = false
  · rw [if_pos hA] at hok
    simp at hok
  · rw [if_neg hA] at hok ⊢
    by_cases hB : c.ctx = none ∧ initOk = false
    · rw [if_pos hB] at hok
      simp at hok
    · rw [if_neg hB] at hok ⊢
      by_cases hK : c.key_size = SRTP_AES_256_KEY_LEN ∨
          c.key_size = SRTP_AES_192_KEY_LEN ∨ c.key_size = SRTP_AES_128_KEY_LEN
      · rw [if_pos hK] at hok ⊢
        by_cases h32 : c.key_size > 32
        · rw [if_pos h32] at hok
          simp at hok
        · rw [if_neg h32]
          constructor <;> simp [icm_ctx_after_salt, hforce]
      · rw [if_neg hK] at hok
        simp at hok

/-- Witness for C2: AES-128 engine, 30 input bytes 0..29; the salt is
bytes 16..29. -/
theorem claim_C2_witness :
    (srtp_aes_icm_wolfssl_context_init true true (icm_fresh_ctx 16)
      (List.range 30)).2.offset =
      ((List.range 30).drop 16).take SRTP_SALT_LEN ++ [0, 0] ∧
    (srtp_aes_icm_wolfssl_context_init true true (icm_fresh_ctx 16)
      (List.range 30)).2.counter =
      ((List.range 30).drop 16).take SRTP_SALT_LEN ++ [0, 0] :=
  claim_C2_init_salt true true (icm_fresh_ctx 16) (List.range 30)
    (by decide) (by decide)

/-- Claim C10: when the engine's key_size is not one of the three
supported lengths, initialize returns bad_param, yet offset and counter
have already been overwritten with the new salt-derived value while the
key bytes were not copied. -/
theorem claim_C10_partial_init (c : srtp_aes_icm_ctx_t) (key : List Nat)
    (hks : ¬(c.key_size = SRTP_AES_256_KEY_LEN ∨
      c.key_size = SRTP_AES_192_KEY_LEN ∨ c.key_size = SRTP_AES_128_KEY_LEN))
    (hlen : c.key_size + SRTP_SALT_LEN ≤ key.length) :
    (srtp_aes_icm_wolfssl_context_init true true c key).1 =
      srtp_err_status_t.bad_param ∧
    (srtp_aes_icm_wolfssl_context_init true true c key).2.offset =
      (key.drop c.key_size).take SRTP_SALT_LEN ++ [0, 0] ∧
    (srtp_aes_icm_wolfssl_context_init true true c key).2.counter =
      (key.drop c.key_size).take SRTP_SALT_LEN ++ [0, 0] ∧
    (srtp_aes_icm_wolfssl_context_init true true c key).2.key = c.key := by
  have hsalt : ((key.drop c.key_size).take SRTP_SALT_LEN).length =
      SRTP_SALT_LEN := by
    rw [List.length_take, List.length_drop]
    omega
  have hforce := force_last_two_zero _ hsalt
  unfold srtp_aes_icm_wolfssl_context_init
  rw [if_neg (by simp), if_neg (by simp), if_neg hks]
  refine ⟨rfl, ?_, ?_, ?_⟩ <;> simp [icm_ctx_after_salt, hforce]

/-- Witness for C10: key_size 20 is unsupported; input bytes 0..39. -/
theorem claim_C10_witness :
    (srtp_aes_icm_wolfssl_context_init true true (icm_fresh_ctx 20)
      (List.range 40)).1 = srtp_err_status_t.bad_param ∧
    (srtp_aes_icm_wolfssl_context_init true true (icm_fresh_ctx 20)
      (List.range 40)).2.offset =
      ((List.range 40).drop 20).take SRTP_SALT_LEN ++ [0, 0] ∧
    (srtp_aes_icm_wolfssl_context_init true true (icm_fresh_ctx 20)
      (List.range 40)).2.counter =
      ((List.range 40).drop 20).take SRTP_SALT_LEN ++ [0, 0] ∧
    (srtp_aes_icm_wolfssl_context_init true true (icm_fresh_ctx 20)
      (List.range 40)).2.key = (icm_fresh_ctx 20).key :=
  claim_C10_partial_init (icm_fresh_ctx 20) (List.range 40)
    (by decide) (by decide)

/-- Claim C5: a successful encrypt call with sufficient capacity writes
exactly src.length bytes of keystream-combined output over the start of
the destination, leaves the rest of the destination as it was, updates
the stored length to src.length, and advances the keystream position. -/
theorem claim_C5_encrypt_ok (ks : List Nat → List Nat → Nat → Nat)
    (c : srtp_aes_icm_ctx_t) (a : Aes) (src dst : List Nat) (cap : Nat)
    (hctx : c.ctx = some a) (hcap : src.length ≤ cap) :
    srtp_aes_icm_wolfssl_encrypt ks true c src dst (some cap) =
      (srtp_err_status_t.ok,
       { c with ctx := some { a with pos := a.pos + src.length } },
       memcpy_into dst (List.zipWith Nat.xor src
         ((List.range src.length).map fun i => ks a.key a.reg (a.pos + i))),
       some src.length) ∧
    (List.zipWith Nat.xor src
      ((List.range src.length).map fun i => ks a.key a.reg (a.pos + i))).length =
      src.length := by
  constructor
  · unfold srtp_aes_icm_wolfssl_encrypt
    rw [hctx]
    simp [Nat.not_lt.mpr hcap, wc_AesCtrEncrypt]
  · rw [List.length_zipWith, List.length_map, List.length_range, Nat.min_self]

/-- Witness for C5 on a 2-byte source, capacity 3, concrete keystream. -/
theorem claim_C5_witness :
    srtp_aes_icm_wolfssl_encrypt (fun _ _ i => i + 1) true
      { icm_fresh_ctx 16 with ctx := some { key := [7], reg := [8], pos := 0 } }
      [5, 6] [9, 9, 9] (some 3) =
      (srtp_err_status_t.ok,
       { icm_fresh_ctx 16 with ctx := some { key := [7], reg := [8], pos := 0 + 2 } },
       memcpy_into [9, 9, 9] (List.zipWith Nat.xor [5, 6]
         ((List.range 2).map fun i => (fun _ _ i => i + 1)
           (([7] : List Nat)) (([8] : List Nat)) (0 + i))),
       some 2) ∧
    (List.zipWith Nat.xor [5, 6]
      ((List.range 2).map fun i => (fun _ _ i => i + 1)
        (([7] : List Nat)) (([8] : List Nat)) (0 + i))).length = 2 :=
  claim_C5_encrypt_ok (fun _ _ i => i + 1)
    { icm_fresh_ctx 16 with ctx := some { key := [7], reg := [8], pos := 0 } }
    { key := [7], reg := [8], pos := 0 } [5, 6] [9, 9, 9] 3 rfl (by decide)

/-- Dropping as many elements as a replicated list holds leaves nothing. -/
lemma drop_replicate_all (n : Nat) : (List.replicate n (0 : Nat)).drop n = [] :=
  List.drop_of_length_le (by simp)

/-- Writing a buffer-filling block into a fresh zero buffer of the same
size yields exactly that block. -/
lemma memcpy_into_exact (out : List Nat) (n : Nat) (h : out.length = n) :
    memcpy_into (List.replicate n (0 : Nat)) out = out := by
  unfold memcpy_into
  rw [h, drop_replicate_all, List.append_nil]

/-- Closed form of a successful srtp_aes_icm_wolfssl_encrypt call. -/
lemma encrypt_ok_form (ks : List Nat → List Nat → Nat → Nat)
    (c : srtp_aes_icm_ctx_t) (a : Aes) (src dst : List Nat) (cap : Nat)
    (hctx : c.ctx = some a) (hcap : src.length ≤ cap) :
    srtp_aes_icm_wolfssl_encrypt ks true c src dst (some cap) =
      (srtp_err_status_t.ok,
       { c with ctx := some { a with pos := a.pos + src.length } },
       memcpy_into dst (List.zipWith Nat.xor src
         ((List.range src.length).map fun i => ks a.key a.reg (a.pos + i))),
       some src.length) := by
  unfold srtp_aes_icm_wolfssl_encrypt
  rw [hctx]
  simp [Nat.not_lt.mpr hcap, wc_AesCtrEncrypt]

/-- An icm_status_step that returns state can only come from an ok
result carrying exactly that state. -/
lemma icm_status_step_eq_some (r : srtp_err_status_t × srtp_aes_icm_ctx_t)
    (c : srtp_aes_icm_ctx_t) (h : icm_status_step r = some c) :
    r = (srtp_err_status_t.ok, c) := by
  cases r with
  | mk st c2 =>
    unfold icm_status_step at h
    by_cases h1 : st = srtp_err_status_t.ok
    · subst h1
      simp at h
      rw [h]
    · rw [if_neg (by simpa using h1)] at h
      exact absurd h (by simp)

/-- After a successful set_iv, the engine's wolfSSL context is
programmed with some key and counter block at keystream position 0. -/
lemma set_iv_ok_shape (sk : Bool) (c : srtp_aes_icm_ctx_t) (iv : List Nat)
    (dir : srtp_cipher_direction_t) (c2 : srtp_aes_icm_ctx_t)
    (h : srtp_aes_icm_wolfssl_set_iv sk c iv dir = (srtp_err_status_t.ok, c2)) :
    ∃ k reg, c2.ctx = some { key := k, reg := reg, pos := 0 } := by
  unfold srtp_aes_icm_wolfssl_set_iv at h
  cases sk
  · simp at h
  · simp at h
    subst h
    exact ⟨_, _, rfl⟩

/-- Claim C6: for every key+salt, nonce and plaintext, encrypting the
plaintext and then, on a freshly initialized engine with the same key
after set_iv with the same nonce, encrypting the resulting ciphertext
reproduces the plaintext exactly; and each descriptor's encrypt and
decrypt entries are the same operation. -/
theorem claim_C6_roundtrip (ks : List Nat → List Nat → Nat → Nat)
    (key_len : Nat) (keyAndSalt nonce pt ct : List Nat)
    (henc : icm_pipeline ks key_len keyAndSalt nonce pt
      srtp_cipher_direction_t.encrypt = some ct) :
    icm_pipeline ks key_len keyAndSalt nonce ct
      srtp_cipher_direction_t.decrypt = some pt ∧
    srtp_aes_icm_128.encrypt = srtp_aes_icm_128.decrypt ∧
    srtp_aes_icm_192.encrypt = srtp_aes_icm_192.decrypt ∧
    srtp_aes_icm_256.encrypt = srtp_aes_icm_256.decrypt := by
  refine ⟨?_, rfl, rfl, rfl⟩
  have hdir : icm_pipeline ks key_len keyAndSalt nonce ct
      srtp_cipher_direction_t.decrypt =
    icm_pipeline ks key_len keyAndSalt nonce ct
      srtp_cipher_direction_t.encrypt := rfl
  rw [hdir]
  unfold icm_pipeline at henc ⊢
  rcases h0 : icm_alloc_engine key_len with _ | c0
  · rw [h0] at henc
    exact absurd henc (by simp)
  rw [h0] at henc
  simp only [Option.some_bind] at henc ⊢
  rcases h1 : icm_status_step (srtp_aes_icm_wolfssl_context_init true true c0
      keyAndSalt) with _ | c1
  · rw [h1] at henc
    exact absurd henc (by simp)
  rw [h1] at henc
  simp only [Option.some_bind] at henc ⊢
  rcases h2 : icm_status_step (srtp_aes_icm_wolfssl_set_iv true c1 nonce
      srtp_cipher_direction_t.encrypt) with _ | c2
  · rw [h2] at henc
    exact absurd henc (by simp)
  rw [h2] at henc
  simp only [Option.some_bind] at henc ⊢
  obtain ⟨k, reg, hctx⟩ :=
    set_iv_ok_shape true c1 nonce _ c2 (icm_status_step_eq_some _ _ h2)
  have hlen1 : (List.zipWith Nat.xor pt
      ((List.range pt.length).map fun i => ks k reg (0 + i))).length =
      pt.length := by
    rw [List.length_zipWith, List.length_map, List.length_range, Nat.min_self]
  unfold icm_encrypt_step at henc ⊢
  rw [encrypt_ok_form ks c2 _ pt _ pt.length hctx le_rfl] at henc
  rw [if_pos rfl] at henc
  rw [memcpy_into_exact _ _ hlen1] at henc
  have hct : ct = List.zipWith Nat.xor pt
      ((List.range pt.length).map fun i => ks k reg (0 + i)) :=
    (Option.some.inj henc).symm
  subst hct
  rw [encrypt_ok_form ks c2 _ _ _ _ hctx le_rfl, if_pos rfl]
  rw [memcpy_into_exact _ _ (by rw [List.length_zipWith, List.length_map,
    List.length_range, hlen1, Nat.min_self])]
  rw [hlen1, zipWith_xor_xor pt _ (by simp)]

/-- Witness for C6: a full concrete round trip through AES-ICM-128 with
input bytes 0..29, nonce bytes 0..15 and a 3-byte plaintext. -/
theorem claim_C6_witness :
    icm_pipeline (fun _ _ i => i + 3) 30 (List.range 30) (List.range 16)
      ((icm_pipeline (fun _ _ i => i + 3) 30 (List.range 30) (List.range 16)
        [10, 20, 30] srtp_cipher_direction_t.encrypt).getD [])
      srtp_cipher_direction_t.decrypt = some [10, 20, 30] ∧
    srtp_aes_icm_128.encrypt = srtp_aes_icm_128.decrypt ∧
    srtp_aes_icm_192.encrypt = srtp_aes_icm_192.decrypt ∧
    srtp_aes_icm_256.encrypt = srtp_aes_icm_256.decrypt :=
  claim_C6_roundtrip (fun _ _ i => i + 3) 30 (List.range 30) (List.range 16)
    [10, 20, 30] _ rfl
